import Mathlib

/-!
Shallow embedding of the process-supervision and session-management core of
the repository: `ServerManager` and the reconciliation pass `sync_server_states`
(src/main.py), `MCPClient` (src/mcp_client.py), and the configuration values
those functions read through `ConfigManager` (src/config_manager.py).

Python dictionaries are modelled as association lists over `String` keys;
`time.time()` is modelled as a `Nat` supplied by the caller; the outcome of
`subprocess.Popen` and of the post-launch grace period is an explicit oracle
(`SpawnResult`), and the outcome of transport/session establishment inside
`MCPClient.connect_to_server` is an explicit oracle (`ConnectOutcome`).
-/

/-- Lookup in an association list, modelling Python `dict.get(key)`:
`none` means the key is absent. -/
def alist_get {α : Type} : List (String × α) → String → Option α
  | [], _ => none
  | (k', v) :: rest, k => if k' = k then some v else alist_get rest k

/-- Update of an association list, modelling Python `dict[key] = value`
(set-or-replace; keys stay unique). -/
def alist_set {α : Type} (l : List (String × α)) (k : String) (v : α) :
    List (String × α) :=
  (k, v) :: l.filter (fun p => p.1 ≠ k)

/-! ## Configuration values (src/config_manager.py)

`ConfigManager.get_config()` re-reads `config.json` on every call and applies
defaults. The merged view that the supervisor reads is modelled by `Config`:
the `internal_mock_config` entry (absent/empty modelled as `none`) and the
`mcpServers` mapping. Each call site of `get_config()` in the embedded code
takes the `Config` it observes as an explicit parameter, so that a re-fetch
that observes a modified store is a different parameter value. -/

/-- The `internal_mock_config` dictionary: `{"enabled": ..., "port": ...}`. -/
structure MockConfig where
  enabled : Bool
  port : Nat
deriving DecidableEq, Repr

/-- One entry of the `mcpServers` mapping: `{"command": ..., "args": [...]}`
(the fields the embedded code reads). -/
structure ServerConf where
  command : Option String
  args : List String
deriving DecidableEq, Repr

/-- The merged configuration view returned by `ConfigManager.get_config()`. -/
structure Config where
  internal_mock_config : Option MockConfig
  mcpServers : List (String × ServerConf)
deriving DecidableEq, Repr

/-! ## ServerManager (src/main.py lines 19-241) -/

/-- A child process handle (`subprocess.Popen`): `alive` models
`poll() is None`. -/
structure Proc where
  pid : Nat
  alive : Bool
deriving DecidableEq, Repr

/-- The mutable state of `ServerManager`: `server_processes` (values may be
`None`, hence `Option Proc`) and `last_start_attempt_times`. -/
structure ServerManagerState where
  server_processes : List (String × Option Proc)
  last_start_attempt_times : List (String × Nat)
deriving DecidableEq, Repr

/-- `ServerManager.__init__`: both dictionaries start empty. -/
def ServerManager_init : ServerManagerState := ⟨[], []⟩

/-- `self.min_restart_interval = 5` (main.py line 27). -/
def min_restart_interval : Nat := 5

/-- The liveness test `process is not None and process.poll() is None`
(main.py line 194, also the guard of `stop_server` at line 153). -/
def live_proc (st : ServerManagerState) (key : String) : Bool :=
  match alist_get st.server_processes key with
  | some (some p) => p.alive
  | _ => false

/-- `ServerManager.is_running` (main.py lines 188-194): every key other than
`"internal_mock"` is unconditionally reported as running. -/
def is_running (st : ServerManagerState) (key : String) : Bool :=
  if key ≠ "internal_mock" then true
  else live_proc st key

/-- `ServerManager.stop_server` (main.py lines 150-178): if the handle is
present and alive, terminate (gracefully, escalating to forced kill) and, in
the `finally` block, set the registry entry to `None`; otherwise do nothing.
The termination mechanics change no manager state beyond the registry entry. -/
def stop_server (key : String) (st : ServerManagerState) : ServerManagerState :=
  if live_proc st key then
    { st with server_processes := alist_set st.server_processes key none }
  else st

/-- Outcome oracle for `subprocess.Popen` and the 3-second grace-period probe
in `start_server`: `ok pid survive` means `Popen` returned a process with the
given pid, and `survive` is whether `poll()` is still `None` after the grace
period; `fileNotFound` models `FileNotFoundError`; `otherError` models any
other exception raised by `Popen`. -/
inductive SpawnResult where
  | ok (pid : Nat) (survive : Bool)
  | fileNotFound
  | otherError
deriving DecidableEq, Repr

/-- The distinct return sites of `ServerManager.start_server`, named with the
outcome vocabulary of the spec (the Python function returns only a `bool`;
`alreadyRunning`/`started` are the `True` sites, all others are `False`). -/
inductive StartOutcome where
  | alreadyRunning   -- line 82: live handle exists
  | noConfig         -- line 98: no server_config found (all keys except internal_mock)
  | disabled         -- line 101: enabled flag false
  | throttled        -- line 108: within min_restart_interval of last attempt
  | noCommand        -- line 114: command resolution failed
  | started          -- line 140: process alive after the grace period
  | startupFailed    -- line 139: process exited during the grace period
  | spawnError       -- line 144: FileNotFoundError from Popen
  | otherError       -- line 148: any other exception from Popen
deriving DecidableEq, Repr

/-- Result of one `start_server` call: its outcome, the manager state after
the call, and how many OS processes the call spawned (0 or 1). -/
structure StartResult where
  outcome : StartOutcome
  state : ServerManagerState
  spawned : Nat
deriving DecidableEq, Repr

/-- The `server_config` resolution of `start_server` (main.py lines 85-94):
only `"internal_mock"` yields a config — the `elif` arm for `mcpServers`
entries is commented out in the source. -/
def internal_mock_server_config (cfg : Config) (key : String) :
    Option MockConfig :=
  if key = "internal_mock" then cfg.internal_mock_config else none

/-- `ServerManager._get_server_command_and_cwd` (main.py lines 29-76),
restricted to the command part: for `"internal_mock"` a command is always
produced; for an `mcpServers` entry the command is `[command, *args]` or an
error (`none`) when `command` is unset; unknown keys resolve to `none`. -/
def get_server_command (cfg : Config) (key : String) : Option (List String) :=
  if key = "internal_mock" then
    some ["python", "mcp_server_mock.py", "--host", "localhost", "--port",
      toString ((cfg.internal_mock_config.map MockConfig.port).getD 8001)]
  else
    match alist_get cfg.mcpServers key with
    | some sc =>
      match sc.command with
      | none => none
      | some c => some (c :: sc.args)
    | none => none

/-- `ServerManager.start_server` (main.py lines 78-148). `cfg` is the value
`self.config_manager.get_config()` returns during this call (the function
re-fetches the store; it does not receive a snapshot from its caller), `now`
is `time.time()` at line 104, and `sp` is the spawn oracle. -/
def start_server (cfg : Config) (now : Nat) (sp : SpawnResult) (key : String)
    (st : ServerManagerState) : StartResult :=
  if is_running st key then ⟨.alreadyRunning, st, 0⟩
  else
    match internal_mock_server_config cfg key with
    | none => ⟨.noConfig, st, 0⟩
    | some mc =>
      if mc.enabled = false then ⟨.disabled, st, 0⟩
      else if now - (alist_get st.last_start_attempt_times key).getD 0
          < min_restart_interval then
        ⟨.throttled, st, 0⟩
      else
        -- the attempt timestamp is recorded (line 109) before the command is
        -- resolved and the launch is attempted
        match get_server_command cfg key with
        | none =>
          ⟨.noCommand,
            { st with last_start_attempt_times :=
                alist_set st.last_start_attempt_times key now }, 0⟩
        | some _ =>
          match sp with
          | .ok pid survive =>
            if survive then
              ⟨.started,
                { st with
                    server_processes :=
                      alist_set st.server_processes key (some ⟨pid, true⟩),
                    last_start_attempt_times :=
                      alist_set st.last_start_attempt_times key now }, 1⟩
            else
              -- the Popen object is stored at line 128 and the entry is
              -- reset to None at line 138 once the early exit is observed
              ⟨.startupFailed,
                { st with
                    server_processes := alist_set st.server_processes key none,
                    last_start_attempt_times :=
                      alist_set st.last_start_attempt_times key now }, 1⟩
          | .fileNotFound =>
            ⟨.spawnError,
              { st with
                  server_processes := alist_set st.server_processes key none,
                  last_start_attempt_times :=
                    alist_set st.last_start_attempt_times key now }, 0⟩
          | .otherError =>
            ⟨.otherError,
              { st with
                  server_processes := alist_set st.server_processes key none,
                  last_start_attempt_times :=
                    alist_set st.last_start_attempt_times key now }, 0⟩

/-! ## Reconciliation pass (`ServerManager.sync_server_states`, main.py 207-241) -/

/-- The `should_be_enabled` computation of the reconciliation loop
(main.py lines 216-220): only `"internal_mock"` can be enabled — the `elif`
arm for `mcpServers` entries is commented out in the source. -/
def desired_enabled (cfg : Config) (key : String) : Bool :=
  if key = "internal_mock" then
    (cfg.internal_mock_config.map MockConfig.enabled).getD false
  else false

/-- `all_managed_keys` (main.py line 211). -/
def managed_keys (cfg : Config) : List String :=
  "internal_mock" :: cfg.mcpServers.map Prod.fst

/-- The keys for which the pass appends a start task (main.py line 224-226):
enabled but not currently running, judged against the state at decision time. -/
def start_keys (cfg : Config) (st : ServerManagerState) : List String :=
  (managed_keys cfg).filter (fun k => desired_enabled cfg k && !is_running st k)

/-- The keys for which the pass appends a stop task (main.py line 227-229):
not enabled but currently reported running, judged at decision time. -/
def stop_keys (cfg : Config) (st : ServerManagerState) : List String :=
  (managed_keys cfg).filter (fun k => !desired_enabled cfg k && is_running st k)

/-- Execution of the gathered stop tasks (main.py lines 232-234). The tasks
run concurrently under the cooperative scheduler but touch pairwise distinct
registry keys, so their combined effect is their sequential composition. -/
def run_stops (keys : List String) (st : ServerManagerState) : ServerManagerState :=
  match keys with
  | [] => st
  | k :: rest => run_stops rest (stop_server k st)

/-- Execution of the gathered start tasks (main.py lines 237-239), collecting
the outcome of each `start_server` call and the total number of processes
spawned. `sp` supplies the spawn oracle per key. -/
def run_starts (cfg : Config) (now : Nat) (sp : String → SpawnResult)
    (keys : List String) (st : ServerManagerState) :
    ServerManagerState × List StartOutcome × Nat :=
  match keys with
  | [] => (st, [], 0)
  | k :: rest =>
    let r := start_server cfg now (sp k) k st
    let rec_result := run_starts cfg now sp rest r.state
    (rec_result.1, r.outcome :: rec_result.2.1, r.spawned + rec_result.2.2)

/-- Result of one reconciliation pass: the final manager state, the stop and
start operations that were issued (in issue order), the outcome of each start,
and the total number of processes spawned by the pass. -/
structure SyncResult where
  state : ServerManagerState
  stopped : List String
  started : List String
  outcomes : List StartOutcome
  spawned : Nat
deriving DecidableEq, Repr

/-- `ServerManager.sync_server_states` (main.py lines 207-241). `cfgSnap` is
the value of `self.config_manager.get_config()` fetched at line 210 and used
for the stop/start partition; `cfgStart` is the value the store yields when
`start_server` re-fetches it at line 85 while the pass is executing (equal to
`cfgSnap` when the store is not modified mid-pass). All stops are executed
before any start. -/
def sync_server_states (cfgSnap cfgStart : Config) (now : Nat)
    (sp : String → SpawnResult) (st : ServerManagerState) : SyncResult :=
  let st1 := run_stops (stop_keys cfgSnap st) st
  let r := run_starts cfgStart now sp (start_keys cfgSnap st) st1
  ⟨r.1, stop_keys cfgSnap st, start_keys cfgSnap st, r.2.1, r.2.2⟩

/-- One operation issued by a reconciliation pass. -/
inductive SyncOp where
  | stopOp (key : String)
  | startOp (key : String)
deriving DecidableEq, Repr

/-- The operations of one pass in completion order: the pass awaits the
gathered stop tasks (line 233) before launching any start task (line 238). -/
def sync_trace (cfgSnap cfgStart : Config) (now : Nat)
    (sp : String → SpawnResult) (st : ServerManagerState) : List SyncOp :=
  let r := sync_server_states cfgSnap cfgStart now sp st
  r.stopped.map SyncOp.stopOp ++ r.started.map SyncOp.startOp

/-! ## MCPClient (src/mcp_client.py) -/

/-- Identity of a connection target: the transport kind passed as
`server_type` and the command/URL passed as `server_command_or_server_url`. -/
structure Target where
  server_type : String
  addr : String
deriving DecidableEq, Repr

/-- A resource registered on the client's `AsyncExitStack`: the transport
context (`stdio_client(...)` / `sse_client(...)`) or the `ClientSession`
context opened over it, tagged with the target that created it. -/
inductive Resource where
  | transport (ty : String) (addr : String)
  | clientSession (ty : String) (addr : String)
deriving DecidableEq, Repr

/-- Whether a stack entry is an underlying transport connection. -/
def Resource.isTransport : Resource → Bool
  | .transport _ _ => true
  | .clientSession _ _ => false

/-- The mutable state of `MCPClient` (mcp_client.py lines 14-19): the
`session` reference (tagged by the target that produced it), the three
recorded-target fields, and the exit stack (most recently entered first). -/
structure MCPClientState where
  session : Option Target
  server_type : Option String
  server_command_or_server_url : Option String
  stdio_server_key : Option String
  exit_stack : List Resource
deriving DecidableEq, Repr

/-- `MCPClient.__init__`. -/
def MCPClient_init : MCPClientState := ⟨none, none, none, none, []⟩

/-- Outcome oracle for one `connect_to_server` call: where (if anywhere) the
establishment sequence raises. `failTransport` models the transport context
raising on entry; `failSession` models `ClientSession(...)` raising on entry
after the transport was registered; `failInitialize` models
`session.initialize()` raising after both contexts were registered and
`self.session` was assigned. -/
inductive ConnectOutcome where
  | ok
  | failTransport
  | failSession
  | failInitialize
deriving DecidableEq, Repr

/-- `MCPClient.connect_to_server` (mcp_client.py lines 21-49). Returns the
state after the call together with `true` when the call raised. The `stdio`
and `sse` arms perform the same state updates except that only the `stdio`
arm records `stdio_server_key`; a `server_type` matching neither arm falls
through the `match` statement and the method returns with no effect. The
recorded-target fields are assigned only after `initialize()` succeeds. -/
def connect_to_server (server_type : String)
    (server_command_or_server_url : String) (stdio_server_key : Option String)
    (oc : ConnectOutcome) (st : MCPClientState) : MCPClientState × Bool :=
  if server_type = "stdio" then
    match oc with
    | .failTransport => (st, true)
    | .failSession =>
      ({ st with exit_stack :=
          .transport server_type server_command_or_server_url :: st.exit_stack },
        true)
    | .failInitialize =>
      ({ st with
          exit_stack :=
            .clientSession server_type server_command_or_server_url ::
              .transport server_type server_command_or_server_url :: st.exit_stack,
          session := some ⟨server_type, server_command_or_server_url⟩ },
        true)
    | .ok =>
      ({ st with
          exit_stack :=
            .clientSession server_type server_command_or_server_url ::
              .transport server_type server_command_or_server_url :: st.exit_stack,
          session := some ⟨server_type, server_command_or_server_url⟩,
          server_type := some server_type,
          server_command_or_server_url := some server_command_or_server_url,
          stdio_server_key := stdio_server_key },
        false)
  else if server_type = "sse" then
    match oc with
    | .failTransport => (st, true)
    | .failSession =>
      ({ st with exit_stack :=
          .transport server_type server_command_or_server_url :: st.exit_stack },
        true)
    | .failInitialize =>
      ({ st with
          exit_stack :=
            .clientSession server_type server_command_or_server_url ::
              .transport server_type server_command_or_server_url :: st.exit_stack,
          session := some ⟨server_type, server_command_or_server_url⟩ },
        true)
    | .ok =>
      ({ st with
          exit_stack :=
            .clientSession server_type server_command_or_server_url ::
              .transport server_type server_command_or_server_url :: st.exit_stack,
          session := some ⟨server_type, server_command_or_server_url⟩,
          server_type := some server_type,
          server_command_or_server_url := some server_command_or_server_url },
        false)
  else (st, false)

/-- `MCPClient.aclose` (mcp_client.py lines 70-72): unwinds the exit stack,
closing every registered resource; no other attribute is touched. Calling it
on an already-unwound stack unwinds nothing. -/
def aclose (st : MCPClientState) : MCPClientState := { st with exit_stack := [] }

/-- The connectivity guard of `MCPClient.get_tools` / `MCPClient.run_tool`
(mcp_client.py lines 53-54 and 63-64): `true` when the call raises
`ValueError` because `self.session is None`; when `false`, the method
proceeds to invoke the stored session object (whether or not its resources
have since been closed). -/
def get_tools_raises_not_connected (st : MCPClientState) : Bool :=
  match st.session with
  | none => true
  | some _ => false

/-- The transports currently registered on the exit stack, i.e. the live
underlying connections the client references. -/
def live_transports (st : MCPClientState) : List Resource :=
  st.exit_stack.filter Resource.isTransport

/-! ## update_mcp_client (src/main.py lines 332-405)

The configuration accessor values that the function reads
(`get_active_server_type`, `get_active_mcp_url`, `get_active_server_key`,
`get_server_config(active_key)`) are taken as one explicit input. -/

/-- The active-server values `update_mcp_client` reads from `ConfigManager`. -/
structure ActiveConfig where
  active_server_type : Option String
  active_mcp_url : Option String
  active_server_key : String
  active_server_config : Option ServerConf
deriving DecidableEq, Repr

/-- `update_mcp_client` (main.py lines 332-405). For the `sse` type: connect
directly when no session exists; keep everything unchanged on a `/settings`
navigation; otherwise close the existing session and connect to the new
target. The `stdio` type follows the same shape, resolving the command from
the active server's configuration (and closing first, at lines 383-386, even
if that configuration then turns out to be missing). A failing `aclose` is
swallowed by the surrounding `try/except`; an unset URL for `sse` trips the
`assert` before any state is mutated, modelled as returning the state
unchanged. An unknown type only logs (line 405). -/
def update_mcp_client (ac : ActiveConfig) (route : String) (oc : ConnectOutcome)
    (st : MCPClientState) : MCPClientState :=
  if ac.active_server_type = some "sse" then
    match ac.active_mcp_url with
    | none => st
    | some url =>
      if st.session = none then
        (connect_to_server "sse" url none oc st).1
      else if route = "/settings" then st
      else (connect_to_server "sse" url none oc (aclose st)).1
  else if ac.active_server_type = some "stdio" then
    if st.session = none then
      match ac.active_server_config with
      | none => st
      | some sc =>
        match sc.command with
        | none => st
        | some cmd =>
          (connect_to_server "stdio" cmd (some ac.active_server_key) oc st).1
    else if route = "/settings" then st
    else
      let st1 := aclose st
      match ac.active_server_config with
      | none => st1
      | some sc =>
        match sc.command with
        | none => st1
        | some cmd =>
          (connect_to_server "stdio" cmd (some ac.active_server_key) oc st1).1
  else st

/-! ## Spec-side predicates and concrete instances used by the theorems -/

/-- The spec's notion of "a live handle exists for `id`": the registry holds a
process object whose `poll()` reports it alive. -/
def has_live_handle (st : ServerManagerState) (key : String) : Prop :=
  ∃ p : Proc, alist_get st.server_processes key = some (some p) ∧ p.alive = true

/-- Configuration with the built-in mock enabled and no user-defined servers. -/
def cfgMockEnabled : Config := ⟨some ⟨true, 8001⟩, []⟩

/-- Configuration with the built-in mock disabled and no user-defined servers. -/
def cfgMockDisabled : Config := ⟨some ⟨false, 8001⟩, []⟩

/-- Configuration with the built-in mock disabled and one user-defined
`mcpServers` entry named `"foo"`. -/
def cfgDisabledWithFoo : Config := ⟨some ⟨false, 8001⟩, [("foo", ⟨none, []⟩)]⟩

/-- Configuration with the built-in mock enabled and one user-defined
`mcpServers` entry named `"foo"`. -/
def cfgEnabledWithFoo : Config := ⟨some ⟨true, 8001⟩, [("foo", ⟨none, []⟩)]⟩

/-- A manager state in which the built-in mock holds a live handle and its
last start attempt was recorded at time 8. -/
def stRunningRecent : ServerManagerState :=
  ⟨[("internal_mock", some ⟨42, true⟩)], [("internal_mock", 8)]⟩

/-- A manager state with no handle for the built-in mock and a start attempt
recorded at time 8. -/
def stIdleRecent : ServerManagerState := ⟨[], [("internal_mock", 8)]⟩

/-- The client state after one successful `sse` connect to `http://a/sse`
from a fresh client. -/
def stConnectedA : MCPClientState :=
  (connect_to_server "sse" "http://a/sse" none .ok MCPClient_init).1

/-! ## Association-list and registry lemmas -/

theorem alist_get_set_same {α : Type} (l : List (String × α)) (k : String) (v : α) :
    alist_get (alist_set l k v) k = some v := by
  simp [alist_get, alist_set]

theorem alist_get_filter_ne {α : Type} (l : List (String × α)) (k k' : String)
    (h : k' ≠ k) :
    alist_get (l.filter (fun p => p.1 ≠ k)) k' = alist_get l k' := by
  induction l with
  | nil => rfl
  | cons p rest ih =>
    obtain ⟨pk, pv⟩ := p
    simp only [ne_eq, decide_not] at ih ⊢
    by_cases hp : pk = k
    · simpa [List.filter_cons, alist_get, hp, Ne.symm h] using ih
    · by_cases hk' : pk = k'
      · simp [List.filter_cons, alist_get, hp, hk', h]
      · simpa [List.filter_cons, alist_get, hp, hk'] using ih

theorem alist_get_set_other {α : Type} (l : List (String × α)) (k k' : String) (v : α)
    (h : k' ≠ k) :
    alist_get (alist_set l k v) k' = alist_get l k' := by
  simp only [alist_set, alist_get]
  rw [if_neg (Ne.symm h)]
  exact alist_get_filter_ne l k k' h

theorem live_proc_stop_same (key : String) (st : ServerManagerState) :
    live_proc (stop_server key st) key = false := by
  unfold stop_server
  cases hb : live_proc st key with
  | false => simpa using hb
  | true => simp [live_proc, alist_get_set_same]

theorem stop_server_other (key k' : String) (st : ServerManagerState)
    (h : k' ≠ key) :
    live_proc (stop_server key st) k' = live_proc st k' := by
  unfold stop_server
  cases hb : live_proc st key with
  | false => simp
  | true =>
    simp only [if_pos rfl, if_true]
    unfold live_proc
    rw [alist_get_set_other _ _ _ _ h]

theorem stop_server_attempts (key : String) (st : ServerManagerState) :
    (stop_server key st).last_start_attempt_times = st.last_start_attempt_times := by
  unfold stop_server
  cases hb : live_proc st key <;> simp

theorem stop_server_not_live (key : String) (st : ServerManagerState)
    (h : live_proc st key = false) : stop_server key st = st := by
  simp [stop_server, h]

theorem stop_server_live_false (key k : String) (st : ServerManagerState)
    (h : live_proc st k = false) : live_proc (stop_server key st) k = false := by
  by_cases hk : k = key
  · subst hk; exact live_proc_stop_same k st
  · rw [stop_server_other key k st hk]; exact h

theorem run_stops_live_false (keys : List String) (st : ServerManagerState)
    (k : String) (h : live_proc st k = false) :
    live_proc (run_stops keys st) k = false := by
  induction keys generalizing st with
  | nil => exact h
  | cons k0 rest ih =>
    simp only [run_stops]
    exact ih _ (stop_server_live_false k0 k st h)

theorem run_stops_live_mem (keys : List String) (st : ServerManagerState)
    (k : String) (h : k ∈ keys) :
    live_proc (run_stops keys st) k = false := by
  induction keys generalizing st with
  | nil => cases h
  | cons k0 rest ih =>
    simp only [run_stops]
    rcases List.mem_cons.mp h with h0 | hrest
    · subst h0
      exact run_stops_live_false rest _ k (live_proc_stop_same k st)
    · exact ih _ hrest

theorem run_stops_live_not_mem (keys : List String) (st : ServerManagerState)
    (k : String) (h : k ∉ keys) :
    live_proc (run_stops keys st) k = live_proc st k := by
  induction keys generalizing st with
  | nil => rfl
  | cons k0 rest ih =>
    simp only [run_stops]
    have hk0 : k ≠ k0 := fun he => h (he ▸ List.mem_cons_self k0 rest)
    rw [ih _ (fun hm => h (List.mem_cons_of_mem _ hm)), stop_server_other k0 k st hk0]

theorem run_stops_attempts (keys : List String) (st : ServerManagerState) :
    (run_stops keys st).last_start_attempt_times = st.last_start_attempt_times := by
  induction keys generalizing st with
  | nil => rfl
  | cons k0 rest ih =>
    simp only [run_stops]
    rw [ih, stop_server_attempts]

theorem run_stops_noop (keys : List String) (st : ServerManagerState)
    (h : ∀ k ∈ keys, live_proc st k = false) : run_stops keys st = st := by
  induction keys with
  | nil => rfl
  | cons k0 rest ih =>
    simp only [run_stops]
    rw [stop_server_not_live k0 st (h k0 (List.mem_cons_self _ _))]
    exact ih (fun k hk => h k (List.mem_cons_of_mem _ hk))

theorem internal_mock_config_key (cfg : Config) (key : String) (mc : MockConfig)
    (h : internal_mock_server_config cfg key = some mc) : key = "internal_mock" := by
  by_cases hk : key = "internal_mock"
  · exact hk
  · simp [internal_mock_server_config, hk] at h

theorem start_server_spawned_pos (cfg : Config) (now : Nat) (sp : SpawnResult)
    (key : String) (st : ServerManagerState) (r : StartResult)
    (hr : start_server cfg now sp key st = r) (h : r.spawned ≠ 0) :
    key = "internal_mock" ∧
    alist_get r.state.last_start_attempt_times key = some now ∧
    min_restart_interval ≤ now - (alist_get st.last_start_attempt_times key).getD 0 ∧
    ((r.outcome = .started ∧ live_proc r.state key = true) ∨
     (r.outcome = .startupFailed ∧ live_proc r.state key = false)) := by
  unfold start_server at hr
  split at hr
  · subst hr; simp at h
  · split at hr
    · subst hr; simp at h
    · next mc hcfg =>
      have hkey := internal_mock_config_key cfg key mc hcfg
      split at hr
      · subst hr; simp at h
      · split at hr
        · subst hr; simp at h
        · next ht =>
          split at hr
          · subst hr; simp at h
          · split at hr
            · split at hr
              · subst hr
                exact ⟨hkey, alist_get_set_same _ _ _, Nat.le_of_not_lt ht,
                  Or.inl ⟨rfl, by simp [live_proc, alist_get_set_same]⟩⟩
              · subst hr
                exact ⟨hkey, alist_get_set_same _ _ _, Nat.le_of_not_lt ht,
                  Or.inr ⟨rfl, by simp [live_proc, alist_get_set_same]⟩⟩
            · subst hr; simp at h
            · subst hr; simp at h

theorem start_server_running_eq (cfg : Config) (now : Nat) (sp : SpawnResult)
    (key : String) (st : ServerManagerState) (h : is_running st key = true) :
    start_server cfg now sp key st = ⟨.alreadyRunning, st, 0⟩ := by
  unfold start_server
  rw [if_pos h]

theorem start_server_throttled_eq (cfg : Config) (now : Nat) (sp : SpawnResult)
    (key : String) (st : ServerManagerState) (mc : MockConfig)
    (h1 : is_running st key = false)
    (h2 : internal_mock_server_config cfg key = some mc)
    (h3 : mc.enabled = true)
    (h4 : now - (alist_get st.last_start_attempt_times key).getD 0
        < min_restart_interval) :
    start_server cfg now sp key st = ⟨.throttled, st, 0⟩ := by
  unfold start_server
  rw [if_neg (by simp [h1]), h2]
  simp [h3, h4]

theorem start_server_started_live (cfg : Config) (now : Nat) (sp : SpawnResult)
    (key : String) (st : ServerManagerState) (r : StartResult)
    (hr : start_server cfg now sp key st = r) (h : r.outcome = .started) :
    key = "internal_mock" ∧ live_proc r.state key = true ∧ r.spawned = 1 := by
  unfold start_server at hr
  split at hr
  · subst hr; simp at h
  · split at hr
    · subst hr; simp at h
    · next mc hcfg =>
      have hkey := internal_mock_config_key cfg key mc hcfg
      split at hr
      · subst hr; simp at h
      · split at hr
        · subst hr; simp at h
        · split at hr
          · subst hr; simp at h
          · split at hr
            · split at hr
              · subst hr
                exact ⟨hkey, by simp [live_proc, alist_get_set_same], rfl⟩
              · subst hr; simp at h
            · subst hr; simp at h
            · subst hr; simp at h

theorem start_server_spawned_le_one (cfg : Config) (now : Nat) (sp : SpawnResult)
    (key : String) (st : ServerManagerState) :
    (start_server cfg now sp key st).spawned ≤ 1 := by
  unfold start_server
  repeat' split
  all_goals simp

theorem start_server_live_other (cfg : Config) (now : Nat) (sp : SpawnResult)
    (key k' : String) (st : ServerManagerState) (r : StartResult)
    (hr : start_server cfg now sp key st = r) (h : k' ≠ key) :
    live_proc r.state k' = live_proc st k' := by
  unfold start_server at hr
  split at hr
  · subst hr; rfl
  · split at hr
    · subst hr; rfl
    · split at hr
      · subst hr; rfl
      · split at hr
        · subst hr; rfl
        · split at hr
          · subst hr; rfl
          · split at hr
            · split at hr
              · subst hr; simp only [live_proc]
                rw [alist_get_set_other _ _ _ _ h]
              · subst hr; simp only [live_proc]
                rw [alist_get_set_other _ _ _ _ h]
            · subst hr; simp only [live_proc]
              rw [alist_get_set_other _ _ _ _ h]
            · subst hr; simp only [live_proc]
              rw [alist_get_set_other _ _ _ _ h]

theorem start_server_attempt_recorded (cfg : Config) (now : Nat)
    (sp : SpawnResult) (key : String) (st : ServerManagerState) (r : StartResult)
    (hr : start_server cfg now sp key st = r)
    (h : r.state.last_start_attempt_times ≠ st.last_start_attempt_times) :
    r.outcome = .started ∨ r.outcome = .startupFailed ∨
    r.outcome = .spawnError ∨ r.outcome = .otherError := by
  unfold start_server at hr
  split at hr
  · subst hr; simp at h
  · split at hr
    · subst hr; simp at h
    · next mc hcfg =>
      have hkey := internal_mock_config_key cfg key mc hcfg
      split at hr
      · subst hr; simp at h
      · split at hr
        · subst hr; simp at h
        · split at hr
          · next hcmd =>
            rw [hkey] at hcmd
            simp [get_server_command] at hcmd
          · split at hr
            · split at hr
              · subst hr; exact Or.inl rfl
              · subst hr; exact Or.inr (Or.inl rfl)
            · subst hr; exact Or.inr (Or.inr (Or.inl rfl))
            · subst hr; exact Or.inr (Or.inr (Or.inr rfl))

theorem is_running_internal (st : ServerManagerState) :
    is_running st "internal_mock" = live_proc st "internal_mock" := by
  simp [is_running]

theorem is_running_other (st : ServerManagerState) (key : String)
    (h : key ≠ "internal_mock") : is_running st key = true := by
  simp [is_running, h]

/-! ## Claim C9 -/

/-- C9: `isRunning` reports the live-handle check only for the reserved
built-in identifier `"internal_mock"`; for every other identifier — including
managed identifiers with no live handle — it reports `true` unconditionally.
For `"internal_mock"` itself, `isRunning` is `true` exactly when a live
handle exists. -/
theorem is_running_characterization (st : ServerManagerState) (key : String) :
    (key ≠ "internal_mock" → is_running st key = true) ∧
    (is_running st "internal_mock" = true ↔ has_live_handle st "internal_mock") := by
  constructor
  · exact is_running_other st key
  · rw [is_running_internal]
    unfold live_proc has_live_handle
    cases hg : alist_get st.server_processes "internal_mock" with
    | none => simp
    | some op =>
      cases op with
      | none => simp
      | some p =>
        constructor
        · intro hp; exact ⟨p, rfl, hp⟩
        · rintro ⟨q, hq, hal⟩
          cases hq
          exact hal

/-- Witness for C9 at a concrete managed identifier and the empty registry. -/
theorem is_running_characterization_witness :
    ("some_managed_server" ≠ "internal_mock") ∧
    is_running ServerManager_init "some_managed_server" = true :=
  ⟨by decide,
    (is_running_characterization ServerManager_init "some_managed_server").1
      (by decide)⟩

/-- Counterexample to C9 as stated: the managed identifier
`"some_managed_server"` has no live handle in the initial (empty) registry,
yet `is_running` reports `true` for it, not `false`. -/
theorem is_running_managed_cex :
    is_running ServerManager_init "some_managed_server" = true ∧
    ¬ has_live_handle ServerManager_init "some_managed_server" := by
  constructor
  · decide
  · rintro ⟨p, hp, -⟩
    simp [ServerManager_init, alist_get] at hp

/-! ## Claim C5 -/

/-- C5 (amended): when the identifier has no live handle, its configuration
resolves and is enabled, and the call arrives within the minimum restart
interval of the previously recorded attempt, `start_server` returns
`Throttled`, spawns nothing and leaves the state — including the throttle
timer — untouched. Moreover the attempt timestamp dictionary changes only in
a call whose outcome shows a launch was actually attempted (`Popen` was
invoked): `started`, `startupFailed`, `spawnError` or `otherError`. -/
theorem throttle_behavior :
    (∀ (cfg : Config) (now : Nat) (sp : SpawnResult) (key : String)
        (st : ServerManagerState) (mc : MockConfig),
      is_running st key = false →
      internal_mock_server_config cfg key = some mc →
      mc.enabled = true →
      now - (alist_get st.last_start_attempt_times key).getD 0
          < min_restart_interval →
      start_server cfg now sp key st = ⟨.throttled, st, 0⟩) ∧
    (∀ (cfg : Config) (now : Nat) (sp : SpawnResult) (key : String)
        (st : ServerManagerState),
      (start_server cfg now sp key st).state.last_start_attempt_times
          ≠ st.last_start_attempt_times →
      (start_server cfg now sp key st).outcome = .started ∨
      (start_server cfg now sp key st).outcome = .startupFailed ∨
      (start_server cfg now sp key st).outcome = .spawnError ∨
      (start_server cfg now sp key st).outcome = .otherError) := by
  constructor
  · intro cfg now sp key st mc h1 h2 h3 h4
    exact start_server_throttled_eq cfg now sp key st mc h1 h2 h3 h4
  · intro cfg now sp key st h
    exact start_server_attempt_recorded cfg now sp key st _ rfl h

/-- Witness for C5: with the mock enabled, no handle, and a recorded attempt
at time 8, a call at time 10 is throttled and changes nothing. -/
theorem throttle_behavior_witness :
    (is_running stIdleRecent "internal_mock" = false ∧
      internal_mock_server_config cfgMockEnabled "internal_mock"
        = some ⟨true, 8001⟩ ∧
      10 - (alist_get stIdleRecent.last_start_attempt_times "internal_mock").getD 0
        < min_restart_interval) ∧
    start_server cfgMockEnabled 10 (.ok 7 true) "internal_mock" stIdleRecent
      = ⟨.throttled, stIdleRecent, 0⟩ :=
  ⟨⟨by decide, by decide, by decide⟩,
    throttle_behavior.1 cfgMockEnabled 10 (.ok 7 true) "internal_mock"
      stIdleRecent ⟨true, 8001⟩ (by decide) (by decide) (by decide) (by decide)⟩

/-- Counterexample to C5 as stated: at time 10, only 2 seconds after the
recorded attempt at time 8, a `start` call for an identifier that currently
holds a live handle returns `AlreadyRunning` (the liveness check precedes the
throttle check), not `Throttled`. -/
theorem throttle_already_running_cex :
    10 - (alist_get stRunningRecent.last_start_attempt_times "internal_mock").getD 0
        < min_restart_interval ∧
    (start_server cfgMockEnabled 10 (.ok 7 true) "internal_mock"
        stRunningRecent).outcome = .alreadyRunning ∧
    (start_server cfgMockEnabled 10 (.ok 7 true) "internal_mock"
        stRunningRecent).outcome ≠ .throttled := by
  refine ⟨by decide, by decide, by decide⟩

/-! ## Claim C1 -/

/-- C1 (amended): across two `start` calls in immediate succession (the second
strictly within the minimum restart interval of the first), at most one OS
process is spawned in total, for every identifier; and whenever the first call
actually started a process (`Started`), the second call returns
`AlreadyRunning` with no new launch and no state change. Exactly one spawn
happens only in that `Started`/`StartupFailed` window — identifiers the
supervisor does not launch (everything except the enabled built-in mock)
yield zero spawns. -/
theorem start_twice_at_most_one_spawn (cfg : Config) (key : String)
    (st : ServerManagerState) (now1 now2 : Nat) (sp1 sp2 : SpawnResult)
    (h2 : now2 - now1 < min_restart_interval) :
    (start_server cfg now1 sp1 key st).spawned
        + (start_server cfg now2 sp2 key
            (start_server cfg now1 sp1 key st).state).spawned ≤ 1 ∧
    ((start_server cfg now1 sp1 key st).outcome = .started →
      start_server cfg now2 sp2 key (start_server cfg now1 sp1 key st).state
        = ⟨.alreadyRunning, (start_server cfg now1 sp1 key st).state, 0⟩) := by
  have hsecond : ∀ r : StartResult, start_server cfg now1 sp1 key st = r →
      r.outcome = .started →
      start_server cfg now2 sp2 key r.state = ⟨.alreadyRunning, r.state, 0⟩ := by
    intro r hr hst
    obtain ⟨hkey, hlive, -⟩ := start_server_started_live cfg now1 sp1 key st r hr hst
    subst hkey
    apply start_server_running_eq
    rw [is_running_internal]
    exact hlive
  constructor
  · by_cases hz : (start_server cfg now1 sp1 key st).spawned = 0
    · rw [hz, Nat.zero_add]
      exact start_server_spawned_le_one cfg now2 sp2 key _
    · obtain ⟨hkey, hatt, hint, hout⟩ :=
        start_server_spawned_pos cfg now1 sp1 key st _ rfl hz
      rcases hout with ⟨hst, hlive⟩ | ⟨hst, hlive⟩
      · have heq := hsecond _ rfl hst
        rw [heq]
        have h1 : (start_server cfg now1 sp1 key st).spawned ≤ 1 :=
          start_server_spawned_le_one cfg now1 sp1 key st
        simpa using h1
      · -- startupFailed: the second call is throttled, so it spawns nothing
        by_cases hz2 : (start_server cfg now2 sp2 key
            (start_server cfg now1 sp1 key st).state).spawned = 0
        · rw [hz2]
          have h1 : (start_server cfg now1 sp1 key st).spawned ≤ 1 :=
            start_server_spawned_le_one cfg now1 sp1 key st
          omega
        · obtain ⟨-, -, hint2, -⟩ :=
            start_server_spawned_pos cfg now2 sp2 key _ _ rfl hz2
          rw [hatt] at hint2
          simp only [Option.getD_some] at hint2
          omega
  · intro hst
    exact hsecond _ rfl hst

/-- Witness for C1: the enabled built-in mock, started successfully at time
100 and started again at time 102, spawns once, and the second call reports
`AlreadyRunning`. -/
theorem start_twice_at_most_one_spawn_witness :
    (102 - 100 < min_restart_interval) ∧
    (start_server cfgMockEnabled 100 (.ok 7 true) "internal_mock"
        ServerManager_init).spawned
      + (start_server cfgMockEnabled 102 (.ok 8 true) "internal_mock"
          (start_server cfgMockEnabled 100 (.ok 7 true) "internal_mock"
            ServerManager_init).state).spawned ≤ 1 ∧
    ((start_server cfgMockEnabled 100 (.ok 7 true) "internal_mock"
        ServerManager_init).outcome = .started →
      start_server cfgMockEnabled 102 (.ok 8 true) "internal_mock"
          (start_server cfgMockEnabled 100 (.ok 7 true) "internal_mock"
            ServerManager_init).state
        = ⟨.alreadyRunning,
            (start_server cfgMockEnabled 100 (.ok 7 true) "internal_mock"
              ServerManager_init).state, 0⟩) :=
  ⟨by decide,
    (start_twice_at_most_one_spawn cfgMockEnabled "internal_mock"
      ServerManager_init 100 102 (.ok 7 true) (.ok 8 true) (by decide)).1,
    (start_twice_at_most_one_spawn cfgMockEnabled "internal_mock"
      ServerManager_init 100 102 (.ok 7 true) (.ok 8 true) (by decide)).2⟩

/-- Counterexample to C1 as stated: for the identifier `"external"` two
back-to-back `start` calls both take the `AlreadyRunning` early return (the
supervisor treats every non-built-in key as running), so the second call does
yield `AlreadyRunning` — but zero processes are spawned in total, not exactly
one. -/
theorem start_twice_spawn_count_cex :
    (start_server cfgMockEnabled 100 (.ok 7 true) "external"
        ServerManager_init).outcome = .alreadyRunning ∧
    (start_server cfgMockEnabled 100 (.ok 8 true) "external"
        (start_server cfgMockEnabled 100 (.ok 7 true) "external"
          ServerManager_init).state).outcome = .alreadyRunning ∧
    (start_server cfgMockEnabled 100 (.ok 7 true) "external"
        ServerManager_init).spawned
      + (start_server cfgMockEnabled 100 (.ok 8 true) "external"
          (start_server cfgMockEnabled 100 (.ok 7 true) "external"
            ServerManager_init).state).spawned = 0 := by
  refine ⟨by decide, by decide, by decide⟩

/-! ## Claim C8 -/

/-- C8 (amended): the stop/start partition of a reconciliation pass — which
identifiers get a stop operation and which get a start operation — is
computed exclusively from the `DesiredState` snapshot fetched at the start of
the pass and the manager state at decision time; it is unaffected by whatever
the configuration store yields when `start_server` later re-fetches it. (The
*launch* decision inside each issued start operation, by contrast, re-checks
the re-fetched store — see the counterexample.) -/
theorem partition_from_snapshot (cfgSnap cfgT cfgU : Config) (now1 now2 : Nat)
    (sp1 sp2 : String → SpawnResult) (st : ServerManagerState) :
    (sync_server_states cfgSnap cfgT now1 sp1 st).started
        = (sync_server_states cfgSnap cfgU now2 sp2 st).started ∧
    (sync_server_states cfgSnap cfgT now1 sp1 st).stopped
        = (sync_server_states cfgSnap cfgU now2 sp2 st).stopped :=
  ⟨rfl, rfl⟩

/-- Counterexample to C8 as stated: fetch a snapshot with the mock enabled,
then disable it in the store mid-pass. The pass still issues the start
operation (the partition uses the snapshot), but `start_server` re-fetches
the store, sees `enabled = false`, and launches nothing — against an
unmodified store the same pass spawns one process. The pass's decisions
therefore do not depend only on the snapshot. -/
theorem mid_pass_config_change_cex :
    (sync_server_states cfgMockEnabled cfgMockDisabled 100 (fun _ => .ok 7 true)
        ServerManager_init).started = ["internal_mock"] ∧
    (sync_server_states cfgMockEnabled cfgMockDisabled 100 (fun _ => .ok 7 true)
        ServerManager_init).outcomes = [.disabled] ∧
    (sync_server_states cfgMockEnabled cfgMockDisabled 100 (fun _ => .ok 7 true)
        ServerManager_init).spawned = 0 ∧
    (sync_server_states cfgMockEnabled cfgMockEnabled 100 (fun _ => .ok 7 true)
        ServerManager_init).outcomes = [.started] ∧
    (sync_server_states cfgMockEnabled cfgMockEnabled 100 (fun _ => .ok 7 true)
        ServerManager_init).spawned = 1 := by
  refine ⟨by decide, by decide, by decide, by decide, by decide⟩

/-! ## Claim C10 -/

/-- C10: calling `connect_to_server` with a transport kind other than
`"stdio"` and `"sse"` falls through the `match` statement: the call returns
normally (no exception) and the entire client state — session, recorded
transport kind, recorded target, stdio key and exit stack — is unchanged. -/
theorem connect_unknown_type_frame (ty addr : String) (k : Option String)
    (oc : ConnectOutcome) (st : MCPClientState)
    (h1 : ty ≠ "stdio") (h2 : ty ≠ "sse") :
    connect_to_server ty addr k oc st = (st, false) := by
  simp [connect_to_server, h1, h2]

/-- Witness for C10 at the transport kind `"websocket"` on a connected
client state. -/
theorem connect_unknown_type_frame_witness :
    ("websocket" ≠ "stdio") ∧ ("websocket" ≠ "sse") ∧
    connect_to_server "websocket" "ws://x" none .ok stConnectedA
      = (stConnectedA, false) :=
  ⟨by decide, by decide,
    connect_unknown_type_frame "websocket" "ws://x" none .ok stConnectedA
      (by decide) (by decide)⟩

/-! ## Claim C3 -/

/-- C3 (amended): a *successful* connect records exactly the requested target
(transport kind and command/URL). A *failed* connect leaves the recorded
target fields holding their previous values — the failure is surfaced as an
exception, but the recorded target is not updated to the requested one,
because the assignments at mcp_client.py lines 41-42/48-49 run only after
`initialize()` succeeds. -/
theorem connect_target_recording (ty addr : String) (k : Option String)
    (oc : ConnectOutcome) (st : MCPClientState) :
    (oc = .ok → (ty = "stdio" ∨ ty = "sse") →
      (connect_to_server ty addr k oc st).1.server_type = some ty ∧
      (connect_to_server ty addr k oc st).1.server_command_or_server_url
        = some addr) ∧
    (oc ≠ .ok →
      (connect_to_server ty addr k oc st).1.server_type = st.server_type ∧
      (connect_to_server ty addr k oc st).1.server_command_or_server_url
        = st.server_command_or_server_url) := by
  constructor
  · rintro rfl (rfl | rfl) <;> simp [connect_to_server]
  · intro hne
    by_cases h1 : ty = "stdio"
    · cases oc <;> simp [connect_to_server, h1] at hne ⊢
    · by_cases h2 : ty = "sse"
      · cases oc <;> simp [connect_to_server, h1, h2] at hne ⊢
      · simp [connect_to_server, h1, h2]

/-- Witness for C3: a successful `sse` connect records the requested URL, and
a failed `sse` connect to `http://b/sse` from the state recorded at
`http://a/sse` keeps `http://a/sse`. -/
theorem connect_target_recording_witness :
    ((connect_to_server "sse" "http://a/sse" none .ok
        MCPClient_init).1.server_type = some "sse" ∧
      (connect_to_server "sse" "http://a/sse" none .ok
        MCPClient_init).1.server_command_or_server_url = some "http://a/sse") ∧
    ((connect_to_server "sse" "http://b/sse" none .failInitialize
        stConnectedA).1.server_type = stConnectedA.server_type ∧
      (connect_to_server "sse" "http://b/sse" none .failInitialize
        stConnectedA).1.server_command_or_server_url
        = stConnectedA.server_command_or_server_url) :=
  ⟨(connect_target_recording "sse" "http://a/sse" none .ok MCPClient_init).1
      rfl (Or.inr rfl),
    (connect_target_recording "sse" "http://b/sse" none .failInitialize
      stConnectedA).2 (by decide)⟩

/-- Counterexample to C3 as stated: after a connect to `http://b/sse` that
fails during the initialization handshake, the recorded target still names
the previously requested `http://a/sse`, not the target requested by the
failed call. -/
theorem failed_connect_keeps_old_target_cex :
    (connect_to_server "sse" "http://b/sse" none .failInitialize
        (aclose stConnectedA)).1.server_command_or_server_url
      = some "http://a/sse" ∧
    some "http://a/sse" ≠ some "http://b/sse" := by
  refine ⟨by decide, by decide⟩

/-! ## Claim C4 -/

/-- C4 (amended): `close()` is idempotent — a second `aclose` right after a
first one changes nothing, and the exit stack is empty after a close — but
`aclose` does not clear the `session` attribute, so the manager is not put
back into the `session is None` state that `get_tools`/`run_tool` treat as
"not connected". -/
theorem aclose_idempotent_session_kept (st : MCPClientState) :
    aclose (aclose st) = aclose st ∧
    (aclose st).session = st.session ∧
    (aclose st).exit_stack = [] :=
  ⟨rfl, rfl, rfl⟩

/-- Counterexample to C4 as stated: after closing a connected client, the
session reference is still set, so a subsequent `get_tools`/`run_tool` call
does not fail with the not-connected `ValueError`; it proceeds against the
closed session. -/
theorem close_then_invoke_cex :
    stConnectedA.session ≠ none ∧
    get_tools_raises_not_connected (aclose stConnectedA) = false := by
  refine ⟨by decide, by decide⟩

/-! ## Claim C2 -/

/-- C2 (amended): `connect_to_server` itself never closes the previous
session (see the counterexample), but the reconnect path of
`update_mcp_client` — taken when a session exists and the navigation is not
`/settings` — first closes the old session and then connects, so after it
completes exactly one live underlying connection exists, it is bound to the
newer target, and the manager records the newer target, for both the `sse`
and the `stdio` transports. -/
theorem reconnect_single_live_connection (st : MCPClientState)
    (route url cmd key : String) (sc : ServerConf)
    (hs : st.session ≠ none) (hr : route ≠ "/settings") :
    (live_transports (update_mcp_client ⟨some "sse", some url, key, none⟩
          route .ok st)
        = [Resource.transport "sse" url] ∧
      (update_mcp_client ⟨some "sse", some url, key, none⟩ route .ok st).session
        = some ⟨"sse", url⟩ ∧
      (update_mcp_client ⟨some "sse", some url, key, none⟩ route .ok
          st).server_command_or_server_url = some url) ∧
    (sc.command = some cmd →
      live_transports (update_mcp_client ⟨some "stdio", none, key, some sc⟩
          route .ok st)
        = [Resource.transport "stdio" cmd] ∧
      (update_mcp_client ⟨some "stdio", none, key, some sc⟩ route .ok
          st).session = some ⟨"stdio", cmd⟩ ∧
      (update_mcp_client ⟨some "stdio", none, key, some sc⟩ route .ok
          st).server_command_or_server_url = some cmd) := by
  constructor
  · simp [update_mcp_client, hs, hr, connect_to_server, aclose,
      live_transports, Resource.isTransport]
  · intro hc
    simp [update_mcp_client, hs, hr, hc, connect_to_server, aclose,
      live_transports, Resource.isTransport]

/-- Witness for C2: from the client connected to `http://a/sse`, a reconnect
to `http://b/sse` (sse) leaves one live transport bound to the new URL, and a
reconnect to a stdio command `runner` likewise. -/
theorem reconnect_single_live_connection_witness :
    (stConnectedA.session ≠ none ∧ "/" ≠ "/settings") ∧
    (live_transports (update_mcp_client ⟨some "sse", some "http://b/sse", "k1",
          none⟩ "/" .ok stConnectedA)
        = [Resource.transport "sse" "http://b/sse"] ∧
      (update_mcp_client ⟨some "sse", some "http://b/sse", "k1", none⟩ "/" .ok
          stConnectedA).session = some ⟨"sse", "http://b/sse"⟩ ∧
      (update_mcp_client ⟨some "sse", some "http://b/sse", "k1", none⟩ "/" .ok
          stConnectedA).server_command_or_server_url = some "http://b/sse") ∧
    (live_transports (update_mcp_client ⟨some "stdio", none, "k1",
          some ⟨some "runner", []⟩⟩ "/" .ok stConnectedA)
        = [Resource.transport "stdio" "runner"] ∧
      (update_mcp_client ⟨some "stdio", none, "k1", some ⟨some "runner", []⟩⟩
          "/" .ok stConnectedA).session = some ⟨"stdio", "runner"⟩ ∧
      (update_mcp_client ⟨some "stdio", none, "k1", some ⟨some "runner", []⟩⟩
          "/" .ok stConnectedA).server_command_or_server_url
        = some "runner") :=
  ⟨⟨by decide, by decide⟩,
    (reconnect_single_live_connection stConnectedA "/" "http://b/sse" "runner"
      "k1" ⟨some "runner", []⟩ (by decide) (by decide)).1,
    (reconnect_single_live_connection stConnectedA "/" "http://b/sse" "runner"
      "k1" ⟨some "runner", []⟩ (by decide) (by decide)).2 rfl⟩

/-- Counterexample to C2 as stated: two back-to-back `connect_to_server`
calls with different targets, with no intervening close, leave *two* live
underlying transports registered on the exit stack — the Session Manager's
connect does not tear down the previous connection. -/
theorem connect_connect_two_live_cex :
    (live_transports (connect_to_server "sse" "http://b/sse" none .ok
        (connect_to_server "sse" "http://a/sse" none .ok
          MCPClient_init).1).1).length = 2 := by
  decide

/-! ## Claim C7 -/

/-- C7: within one reconciliation pass, every stop operation strictly
precedes every start operation in the pass's operation order — the pass
awaits the gathered stop tasks before it launches any start task. -/
theorem stops_complete_before_starts (cfgSnap cfgStart : Config) (now : Nat)
    (sp : String → SpawnResult) (st : ServerManagerState) (i j : Nat)
    (k k' : String)
    (hi : (sync_trace cfgSnap cfgStart now sp st)[i]? = some (.startOp k))
    (hj : (sync_trace cfgSnap cfgStart now sp st)[j]? = some (.stopOp k')) :
    j < i := by
  have htr : sync_trace cfgSnap cfgStart now sp st
      = (stop_keys cfgSnap st).map SyncOp.stopOp
        ++ (start_keys cfgSnap st).map SyncOp.startOp := rfl
  rw [htr] at hi hj
  set A := (stop_keys cfgSnap st).map SyncOp.stopOp with hA
  set B := (start_keys cfgSnap st).map SyncOp.startOp with hB
  have hjlt : j < A.length := by
    by_contra hge
    push_neg at hge
    rw [List.getElem?_append_right hge] at hj
    have hmem : SyncOp.stopOp k' ∈ B := by
      obtain ⟨hlt, heq⟩ := List.getElem?_eq_some.mp hj
      exact heq ▸ List.getElem_mem _
    rw [hB] at hmem
    obtain ⟨x, -, hx⟩ := List.mem_map.mp hmem
    exact SyncOp.noConfusion hx
  have hige : A.length ≤ i := by
    by_contra hlt
    push_neg at hlt
    rw [List.getElem?_append_left hlt] at hi
    have hmem : SyncOp.startOp k ∈ A := by
      obtain ⟨hlt2, heq⟩ := List.getElem?_eq_some.mp hi
      exact heq ▸ List.getElem_mem _
    rw [hA] at hmem
    obtain ⟨x, -, hx⟩ := List.mem_map.mp hmem
    exact SyncOp.noConfusion hx
  omega

/-- Witness for C7: a pass that both stops `"foo"` and starts the built-in
mock places the stop (position 0) before the start (position 1). -/
theorem stops_complete_before_starts_witness :
    ((sync_trace cfgEnabledWithFoo cfgEnabledWithFoo 100 (fun _ => .ok 7 true)
        ServerManager_init)[1]? = some (.startOp "internal_mock") ∧
      (sync_trace cfgEnabledWithFoo cfgEnabledWithFoo 100 (fun _ => .ok 7 true)
        ServerManager_init)[0]? = some (.stopOp "foo")) ∧
    0 < 1 :=
  ⟨⟨by decide, by decide⟩,
    stops_complete_before_starts cfgEnabledWithFoo cfgEnabledWithFoo 100
      (fun _ => .ok 7 true) ServerManager_init 1 0 "internal_mock" "foo"
      (by decide) (by decide)⟩

/-! ## Claim C6 -/

theorem desired_enabled_key (cfg : Config) (k : String)
    (h : desired_enabled cfg k = true) : k = "internal_mock" := by
  by_cases hk : k = "internal_mock"
  · exact hk
  · simp [desired_enabled, hk] at h

theorem mem_start_keys (cfg : Config) (st : ServerManagerState) (k : String) :
    k ∈ start_keys cfg st ↔
      k ∈ managed_keys cfg ∧ desired_enabled cfg k = true ∧
        is_running st k = false := by
  simp [start_keys, List.mem_filter, Bool.and_eq_true, Bool.not_eq_true',
    and_assoc]

theorem mem_stop_keys (cfg : Config) (st : ServerManagerState) (k : String) :
    k ∈ stop_keys cfg st ↔
      k ∈ managed_keys cfg ∧ desired_enabled cfg k = false ∧
        is_running st k = true := by
  simp [stop_keys, List.mem_filter, Bool.and_eq_true, Bool.not_eq_true',
    and_assoc]

theorem start_keys_all_internal (cfg : Config) (st : ServerManagerState)
    (k : String) (h : k ∈ start_keys cfg st) : k = "internal_mock" :=
  desired_enabled_key cfg k ((mem_start_keys cfg st k).mp h).2.1

theorem run_starts_live_other (cfg : Config) (now : Nat)
    (sp : String → SpawnResult) (keys : List String) (st : ServerManagerState)
    (k : String) (hk : ∀ k0 ∈ keys, k ≠ k0) :
    live_proc (run_starts cfg now sp keys st).1 k = live_proc st k := by
  induction keys generalizing st with
  | nil => rfl
  | cons k0 rest ih =>
    simp only [run_starts]
    rw [ih _ (fun x hx => hk x (List.mem_cons_of_mem _ hx)),
      start_server_live_other cfg now (sp k0) k0 k st _ rfl
        (hk k0 (List.mem_cons_self _ _))]

theorem run_starts_all_running (cfg : Config) (now : Nat)
    (sp : String → SpawnResult) (keys : List String) (st : ServerManagerState)
    (hall : ∀ k0 ∈ keys, is_running st k0 = true) :
    (run_starts cfg now sp keys st).1 = st := by
  induction keys with
  | nil => rfl
  | cons k0 rest ih =>
    simp only [run_starts]
    rw [start_server_running_eq cfg now (sp k0) k0 st
      (hall k0 (List.mem_cons_self _ _))]
    exact ih (fun x hx => hall x (List.mem_cons_of_mem _ hx))

theorem run_starts_outcomes_started_live (cfg : Config) (now : Nat)
    (sp : String → SpawnResult) (keys : List String) (st : ServerManagerState)
    (hkeys : keys ≠ [])
    (hint : ∀ k0 ∈ keys, k0 = "internal_mock")
    (hok : ∀ o ∈ (run_starts cfg now sp keys st).2.1, o = StartOutcome.started) :
    live_proc (run_starts cfg now sp keys st).1 "internal_mock" = true := by
  cases keys with
  | nil => exact absurd rfl hkeys
  | cons k0 rest =>
    have hk0 : k0 = "internal_mock" := hint k0 (List.mem_cons_self _ _)
    subst hk0
    simp only [run_starts] at hok ⊢
    have hr0 : (start_server cfg now (sp "internal_mock") "internal_mock"
        st).outcome = .started :=
      hok _ (List.mem_cons_self _ _)
    have hlive := (start_server_started_live cfg now (sp "internal_mock")
      "internal_mock" st _ rfl hr0).2.1
    have hrest : (run_starts cfg now sp rest
        (start_server cfg now (sp "internal_mock") "internal_mock" st).state).1
        = (start_server cfg now (sp "internal_mock") "internal_mock" st).state :=
      run_starts_all_running cfg now sp rest _ (fun x hx => by
        rw [hint x (List.mem_cons_of_mem _ hx), is_running_internal]
        exact hlive)
    rw [hrest]
    exact hlive

/-- C6 (amended): when every start operation of the first reconciliation pass
reports `Started`, a second pass over the unchanged configuration issues zero
start operations, issues stop operations only for identifiers other than the
built-in one (those re-issued stops are no-ops — the supervisor reports every
non-built-in identifier as running on every pass), and leaves the manager
state exactly as the first pass left it. -/
theorem sync_idempotent_after_success (cfg : Config) (now1 now2 : Nat)
    (sp1 sp2 : String → SpawnResult) (st : ServerManagerState)
    (hok : ∀ o ∈ (sync_server_states cfg cfg now1 sp1 st).outcomes,
      o = StartOutcome.started) :
    (sync_server_states cfg cfg now2 sp2
        (sync_server_states cfg cfg now1 sp1 st).state).started = [] ∧
    (∀ k ∈ (sync_server_states cfg cfg now2 sp2
        (sync_server_states cfg cfg now1 sp1 st).state).stopped,
      k ≠ "internal_mock") ∧
    (sync_server_states cfg cfg now2 sp2
        (sync_server_states cfg cfg now1 sp1 st).state).state
      = (sync_server_states cfg cfg now1 sp1 st).state := by
  set st1 := run_stops (stop_keys cfg st) st with hst1
  set st2 := (sync_server_states cfg cfg now1 sp1 st).state with hst2
  have hstate1 : st2 = (run_starts cfg now1 sp1 (start_keys cfg st) st1).1 := by
    rw [hst2]; rfl
  have hok1 : ∀ o ∈ (run_starts cfg now1 sp1 (start_keys cfg st) st1).2.1,
      o = StartOutcome.started := hok
  have hint1 : ∀ x ∈ start_keys cfg st, x = "internal_mock" :=
    fun x hx => start_keys_all_internal cfg st x hx
  have hliveA : desired_enabled cfg "internal_mock" = true →
      live_proc st2 "internal_mock" = true := by
    intro hd
    have hnotstop : "internal_mock" ∉ stop_keys cfg st := by
      intro hmem
      have hcontra := ((mem_stop_keys cfg st "internal_mock").mp hmem).2.1
      rw [hd] at hcontra
      exact Bool.noConfusion hcontra
    cases hrun : is_running st "internal_mock" with
    | true =>
      have hempty : start_keys cfg st = [] := by
        rw [List.eq_nil_iff_forall_not_mem]
        intro x hx
        have hxi := hint1 x hx
        subst hxi
        have hcontra := ((mem_start_keys cfg st _).mp hx).2.2
        rw [hrun] at hcontra
        exact Bool.noConfusion hcontra
      rw [hstate1, hempty]
      show live_proc st1 "internal_mock" = true
      rw [hst1, run_stops_live_not_mem _ _ _ hnotstop]
      rw [is_running_internal] at hrun
      exact hrun
    | false =>
      have hmem : "internal_mock" ∈ start_keys cfg st :=
        (mem_start_keys cfg st "internal_mock").mpr
          ⟨List.mem_cons_self _ _, hd, hrun⟩
      rw [hstate1]
      exact run_starts_outcomes_started_live cfg now1 sp1 _ st1
        (List.ne_nil_of_mem hmem) hint1 hok1
  have hliveB : desired_enabled cfg "internal_mock" = false →
      live_proc st2 "internal_mock" = false := by
    intro hd
    have hempty : start_keys cfg st = [] := by
      rw [List.eq_nil_iff_forall_not_mem]
      intro x hx
      have hxi := hint1 x hx
      subst hxi
      have hcontra := ((mem_start_keys cfg st _).mp hx).2.1
      rw [hd] at hcontra
      exact Bool.noConfusion hcontra
    rw [hstate1, hempty]
    show live_proc st1 "internal_mock" = false
    cases hlv : live_proc st "internal_mock" with
    | false => rw [hst1]; exact run_stops_live_false _ _ _ hlv
    | true =>
      have hmem : "internal_mock" ∈ stop_keys cfg st :=
        (mem_stop_keys cfg st _).mpr
          ⟨List.mem_cons_self _ _, hd, by rw [is_running_internal]; exact hlv⟩
      rw [hst1]
      exact run_stops_live_mem _ _ _ hmem
  have hliveO : ∀ k, k ≠ "internal_mock" → k ∈ managed_keys cfg →
      live_proc st2 k = false := by
    intro k hk hkm
    have h1 : live_proc st2 k = live_proc st1 k := by
      rw [hstate1]
      exact run_starts_live_other cfg now1 sp1 _ st1 k
        (fun k0 hk0 => by rw [hint1 k0 hk0]; exact hk)
    have hmem : k ∈ stop_keys cfg st :=
      (mem_stop_keys cfg st k).mpr
        ⟨hkm, by simp [desired_enabled, hk], is_running_other st k hk⟩
    rw [h1, hst1]
    exact run_stops_live_mem _ _ _ hmem
  have hstarted2 : start_keys cfg st2 = [] := by
    rw [List.eq_nil_iff_forall_not_mem]
    intro x hx
    have hxi := start_keys_all_internal cfg st2 x hx
    subst hxi
    obtain ⟨-, hd, hnr⟩ := (mem_start_keys cfg st2 _).mp hx
    have hlv := hliveA hd
    rw [is_running_internal, hlv] at hnr
    exact Bool.noConfusion hnr
  have hstop2 : ∀ k ∈ stop_keys cfg st2, k ≠ "internal_mock" := by
    intro k hk he
    subst he
    obtain ⟨-, hd, hr⟩ := (mem_stop_keys cfg st2 _).mp hk
    have hlv := hliveB hd
    rw [is_running_internal, hlv] at hr
    exact Bool.noConfusion hr
  have hstate2 : (sync_server_states cfg cfg now2 sp2 st2).state = st2 := by
    have h0 : (sync_server_states cfg cfg now2 sp2 st2).state
        = (run_starts cfg now2 sp2 (start_keys cfg st2)
            (run_stops (stop_keys cfg st2) st2)).1 := rfl
    rw [h0, hstarted2]
    show run_stops (stop_keys cfg st2) st2 = st2
    apply run_stops_noop
    intro k hk
    exact hliveO k (hstop2 k hk) ((mem_stop_keys cfg st2 k).mp hk).1
  exact ⟨hstarted2, hstop2, hstate2⟩

/-- Witness for C6: starting from the empty registry with the mock enabled
and a successful launch, the second pass issues no operations at all and
keeps the state. -/
theorem sync_idempotent_after_success_witness :
    (∀ o ∈ (sync_server_states cfgMockEnabled cfgMockEnabled 100
        (fun _ => .ok 7 true) ServerManager_init).outcomes,
      o = StartOutcome.started) ∧
    (sync_server_states cfgMockEnabled cfgMockEnabled 200 (fun _ => .ok 8 true)
        (sync_server_states cfgMockEnabled cfgMockEnabled 100
          (fun _ => .ok 7 true) ServerManager_init).state).started = [] ∧
    (∀ k ∈ (sync_server_states cfgMockEnabled cfgMockEnabled 200
        (fun _ => .ok 8 true)
        (sync_server_states cfgMockEnabled cfgMockEnabled 100
          (fun _ => .ok 7 true) ServerManager_init).state).stopped,
      k ≠ "internal_mock") ∧
    (sync_server_states cfgMockEnabled cfgMockEnabled 200 (fun _ => .ok 8 true)
        (sync_server_states cfgMockEnabled cfgMockEnabled 100
          (fun _ => .ok 7 true) ServerManager_init).state).state
      = (sync_server_states cfgMockEnabled cfgMockEnabled 100
          (fun _ => .ok 7 true) ServerManager_init).state :=
  ⟨by decide,
    sync_idempotent_after_success cfgMockEnabled 100 200 (fun _ => .ok 7 true)
      (fun _ => .ok 8 true) ServerManager_init (by decide)⟩

/-- Counterexample to C6 as stated: with one user-defined server `"foo"`
configured (and the mock disabled), a reconciliation pass issues a stop
operation for `"foo"` on *every* run — the supervisor reports `"foo"` as
running unconditionally — so the second of two back-to-back passes with an
unchanged configuration still issues one stop operation, not zero. -/
theorem sync_twice_stops_cex :
    (sync_server_states cfgDisabledWithFoo cfgDisabledWithFoo 200
        (fun _ => .ok 7 true)
        (sync_server_states cfgDisabledWithFoo cfgDisabledWithFoo 100
          (fun _ => .ok 7 true) ServerManager_init).state).stopped
      = ["foo"] := by
  decide
